import Mathlib

/-!
Shallow embedding of the `v4l2_detector` C sources and verification of the
specification claims about them.

Conventions of the embedding:
* machine integers are modelled as `Nat`/`Int` with explicit reductions
  modulo `2 ^ w` exactly where the C code can overflow or convert;
* every ioctl/syscall interaction is an explicit input to the embedded
  function (the device/driver environment), so each C function becomes a
  pure Lean function of its inputs, mirroring the C control flow;
* `float`/`double` arithmetic is modelled over `ℚ` (exact rational
  division with the same zero guards the C code has).
-/

/-! ## Errno constants (Linux asm-generic values) used by the sources -/

def ENOENT : Nat := 2
def ENOMEM : Nat := 12
def EINVAL : Nat := 22
def ENOTTY : Nat := 25
def ERANGE : Nat := 34
def ENOLCK : Nat := 37
def ENOLINK : Nat := 67

/-! ## Two's-complement reinterpretation helpers

`i32ofBits`/`i64ofBits` read a bit pattern (a `Nat`) as a signed 32/64-bit
value; `bits64ofInt` is the C conversion of a signed value to `uint64_t`
(reduction modulo `2 ^ 64`, i.e. sign extension for negative values). -/

def i32ofBits (n : Nat) : Int :=
  if n % 2 ^ 32 < 2 ^ 31 then ((n % 2 ^ 32 : Nat) : Int)
  else ((n % 2 ^ 32 : Nat) : Int) - 2 ^ 32

def i64ofBits (n : Nat) : Int :=
  if n % 2 ^ 64 < 2 ^ 63 then ((n % 2 ^ 64 : Nat) : Int)
  else ((n % 2 ^ 64 : Nat) : Int) - 2 ^ 64

def bits64ofInt (a : Int) : Nat := (a % (2 ^ 64 : Int)).toNat

def u32ofInt (a : Int) : Nat := (a % (2 ^ 32 : Int)).toNat

/-! ## v4l2_utils.c -/

/-- `v4l2_pack_tuple` (v4l2_utils.c:66-69):
`return ((uint64_t)a << 32) | ((uint64_t)b & 0xffffffff);` with the
`uint64_t` result converted to the `int64_t` return type. -/
def v4l2_pack_tuple (a b : Int) : Int :=
  i64ofBits (((bits64ofInt a <<< 32) % 2 ^ 64) ||| (bits64ofInt b &&& 0xffffffff))

/-- `v4l2_unpack_tuple` (v4l2_utils.c:71-84).  The out-parameters become the
returned pair.  `packed` is an `int64_t`; we branch on its bit pattern the
way the C code masks it.  In the first branch the value is non-negative
(its high 32 bits are zero), so the arithmetic shift `packed >> 16` equals
the logical shift on the bit pattern; in the second branch the C code
truncates `packed >> 32` to `int32_t`, i.e. it keeps the top 32 bits of the
pattern reinterpreted as signed. -/
def v4l2_unpack_tuple (packed : Int) : Int × Int :=
  let bits : Nat := bits64ofInt packed
  if bits &&& 0xffffffff00000000 = 0 then
    (i32ofBits (bits >>> 16), i32ofBits (bits &&& 0xffff))
  else
    (i32ofBits (bits >>> 32), i32ofBits (bits &&& 0xffffffff))

/-- `v4l2_framerate_to_fps` (v4l2_utils.c:58-64): `denominator/numerator`
with a zero guard on the numerator. -/
def v4l2_framerate_to_fps (numerator denominator : Nat) : ℚ :=
  if numerator = 0 then 0 else (denominator : ℚ) / (numerator : ℚ)

/-! ## v4l2_signal.c -/

/-- The fields of `struct v4l2_bt_timings` read by the sources.
All are `u32` except `pixelclock` (`u64`). -/
structure BtTimings where
  width : Nat
  height : Nat
  interlaced : Nat
  pixelclock : Nat
  hfrontporch : Nat
  hsync : Nat
  hbackporch : Nat
  vfrontporch : Nat
  vsync : Nat
  vbackporch : Nat
deriving Repr, DecidableEq

/-- `calculate_fps` (v4l2_signal.c:25-41), with the `double` division taken
over `ℚ`.  The horizontal and vertical totals are sums of `__u32` fields:
C adds them in 32-bit unsigned arithmetic, wrapping modulo `2 ^ 32`,
before widening the result to the `uint64_t` variables, hence the
explicit reductions; `total_height / 2` is the C integer division, and
the final `uint64_t` product of two values below `2 ^ 32` cannot wrap. -/
def calculate_fps (t : BtTimings) : ℚ :=
  if t.pixelclock = 0 then 0
  else
    let total_width := (t.width + t.hfrontporch + t.hsync + t.hbackporch) % 2 ^ 32
    let th := (t.height + t.vfrontporch + t.vsync + t.vbackporch) % 2 ^ 32
    let total_height := if t.interlaced ≠ 0 then th / 2 else th
    if total_width = 0 ∨ total_height = 0 then 0
    else (t.pixelclock : ℚ) / ((total_width * total_height : Nat) : ℚ)

/-- `enum v4l2_signal_state` (v4l2_detector.h:234-242). -/
inductive SignalState
  | noDevice
  | noLink
  | noSignal
  | unstable
  | locked
  | outOfRange
  | notSupported
deriving Repr, DecidableEq

/-- `struct v4l2_signal_status` (v4l2_detector.h:247-253); `interlaced` is a
C `int` receiving the `u32` flag field, kept as `Nat`. -/
structure SignalStatus where
  state : SignalState
  width : Nat
  height : Nat
  fps : ℚ
  interlaced : Nat
deriving Repr, DecidableEq

/-- `v4l2_get_dv_timings` (v4l2_signal.c:101-151) as a pure function of the
open outcome and the `VIDIOC_G_DV_TIMINGS` ioctl outcome (`.error e`
carries the errno the failed ioctl left behind). -/
def v4l2_get_dv_timings (openOk : Bool) (ioctlDv : Except Nat BtTimings) :
    SignalStatus :=
  if openOk = false then
    { state := .noDevice, width := 0, height := 0, fps := 0, interlaced := 0 }
  else
    match ioctlDv with
    | .ok t =>
      if 0 < t.width ∧ 0 < t.height ∧ 0 < t.pixelclock then
        { state := .locked, width := t.width, height := t.height,
          fps := calculate_fps t, interlaced := t.interlaced }
      else
        { state := .noSignal, width := 0, height := 0, fps := 0, interlaced := 0 }
    | .error e =>
      { state :=
          if e = ENOLINK then .noLink
          else if e = ENOLCK then .unstable
          else if e = ERANGE then .outOfRange
          else if e = ENOTTY then .notSupported
          else .noSignal,
        width := 0, height := 0, fps := 0, interlaced := 0 }

/-- Device type classification (v4l2_detector.h:225-229). -/
inductive DeviceType
  | webcam
  | hdmi
  | unknown
deriving Repr, DecidableEq

/-- `struct v4l2_device_status` (v4l2_detector.h:291-294). -/
structure DeviceStatus where
  device_type : DeviceType
  ready : Bool
deriving Repr, DecidableEq

/-- `v4l2_get_device_status` (v4l2_signal.c:44-92) as a pure function of the
open outcome, the `VIDIOC_QUERYCAP` outcome (with the reported driver
name), and the `VIDIOC_G_DV_TIMINGS` outcome. -/
def v4l2_get_device_status (openOk : Bool) (querycapOk : Bool)
    (driver : String) (ioctlDv : Except Nat BtTimings) : DeviceStatus :=
  if openOk = false then { device_type := .unknown, ready := false }
  else if querycapOk = false then { device_type := .unknown, ready := false }
  else
    match ioctlDv with
    | .ok t =>
      { device_type := .hdmi,
        ready := decide (0 < t.width ∧ 0 < t.height ∧ 0 < t.pixelclock) }
    | .error e =>
      if e = ENOLINK ∨ e = ENOLCK then
        { device_type := .hdmi, ready := false }
      else if driver = "uvcvideo" then
        { device_type := .webcam, ready := true }
      else
        { device_type := .unknown, ready := true }

/-- The observable interactions of one `v4l2_wait_for_source_change` call:
whether the open succeeded, whether `VIDIOC_SUBSCRIBE_EVENT` succeeded, the
`select` return value, and the `VIDIOC_DQEVENT` outcome (`some flags` =
event dequeued with that `u.src_change.changes` bitmask). -/
structure WaitEnv where
  openOk : Bool
  subscribeOk : Bool
  selectRet : Int
  dqevent : Option Nat
deriving Repr, DecidableEq

/-- Result of `v4l2_wait_for_source_change`: the returned `int`, whether
`VIDIOC_UNSUBSCRIBE_EVENT` was issued before returning, and whether an
event was actually dequeued. -/
structure WaitOutcome where
  ret : Int
  unsubscribed : Bool
  dequeued : Bool
deriving Repr, DecidableEq

/-- `v4l2_wait_for_source_change` (v4l2_signal.c:154-202).  The dequeued
`changes` field is a `__u32` returned through the `int` return type, hence
the `i32ofBits` reinterpretation. -/
def v4l2_wait_for_source_change (env : WaitEnv) : WaitOutcome :=
  if env.openOk = false then { ret := -1, unsubscribed := false, dequeued := false }
  else if env.subscribeOk = false then { ret := -2, unsubscribed := false, dequeued := false }
  else if 0 < env.selectRet then
    match env.dqevent with
    | some flags => { ret := i32ofBits flags, unsubscribed := true, dequeued := true }
    | none => { ret := env.selectRet, unsubscribed := true, dequeued := false }
  else { ret := env.selectRet, unsubscribed := true, dequeued := false }

/-! ## v4l2_formats.c -/

/-- `common_resolutions` (v4l2_formats.c:22-61), all 30 table entries in
source order.  Note that `(480, 320)` appears twice (once in the 4:3
section, once in the tv section). -/
def common_resolutions : List (Nat × Nat) :=
  [(160, 120), (320, 240), (480, 320), (640, 480), (800, 600), (1024, 768),
   (1280, 960), (1440, 1050), (1440, 1080), (1600, 1200),
   (640, 360), (960, 540), (1280, 720), (1600, 900), (1920, 1080),
   (1920, 1200), (2560, 1440), (3840, 2160),
   (2560, 1080), (3440, 1440), (5120, 2160),
   (432, 520), (480, 320), (480, 530), (486, 440), (576, 310), (576, 520),
   (576, 570), (720, 576), (1024, 576)]

/-- `common_framerates` (v4l2_formats.c:63-70), as (numerator, denominator)
pairs. -/
def common_framerates : List (Nat × Nat) :=
  [(1, 60), (1, 50), (1, 30), (1, 25), (1, 20), (1, 15), (1, 10), (1, 5)]

def V4L2_FMT_FLAG_EMULATED : Nat := 0x0002

/-- One successful `VIDIOC_ENUM_FMT` answer. -/
structure FormatDesc where
  pixelformat : Nat
  description : String
  flags : Nat
deriving Repr, DecidableEq

/-- `struct v4l2_format_info` (v4l2_detector.h:35-40). -/
structure FormatInfo where
  pixel_format : Nat
  format_name : String
  emulated : Bool
deriving Repr, DecidableEq

/-- `v4l2_get_formats` (v4l2_formats.c:74-155).  `fmts` is the sequence of
successful `VIDIOC_ENUM_FMT` answers for indices 0, 1, ... (the driver
fails on the next index).  The count pass yields `fmts.length`; the fill
pass re-enumerates, bounded by `index < fmt_count`, hence the `take`. -/
def v4l2_get_formats (openOk : Bool) (openErrno : Nat)
    (fmts : List FormatDesc) : Except Int (List FormatInfo) :=
  if openOk = false then .error (-(openErrno : Int))
  else
    let fmt_count := fmts.length
    if fmt_count = 0 then .ok []
    else
      .ok ((fmts.take fmt_count).map (fun f =>
        { pixel_format := f.pixelformat
          format_name :=
            if f.flags &&& V4L2_FMT_FLAG_EMULATED ≠ 0 then
              f.description ++ " (Emulated)"
            else f.description
          emulated := decide (f.flags &&& V4L2_FMT_FLAG_EMULATED ≠ 0) }))

/-- The `stepwise` min/max rectangle of `struct v4l2_frmsizeenum`. -/
structure StepwiseRange where
  min_width : Nat
  max_width : Nat
  min_height : Nat
  max_height : Nat
deriving Repr, DecidableEq

/-- The driver's (deterministic) answer to `VIDIOC_ENUM_FRAMESIZES` for one
pixel format: either a discrete enumeration (successive successful answers
from index 0) or a continuous/stepwise range. -/
inductive FrmsizeProbe
  | discrete (sizes : List (Nat × Nat))
  | continuous (r : StepwiseRange)
  | stepwise (r : StepwiseRange)
deriving Repr, DecidableEq

/-- The range filter of v4l2_formats.c:219-222 and 291-294. -/
def inResRange (r : StepwiseRange) (p : Nat × Nat) : Bool :=
  r.min_width ≤ p.1 && p.1 ≤ r.max_width && r.min_height ≤ p.2 && p.2 ≤ r.max_height

/-- `v4l2_get_resolutions` (v4l2_formats.c:157-314).  The probe of index 0
determines the enumeration shape; on probe failure the function returns
`-errno` (v4l2_formats.c:176-181).  The driver environment is fixed, so the
re-probes in the count and fill passes return the same answer. -/
def v4l2_get_resolutions (openOk : Bool) (openErrno : Nat)
    (probe : Except Nat FrmsizeProbe) : Except Int (List (Nat × Nat)) :=
  if openOk = false then .error (-(openErrno : Int))
  else
    match probe with
    | .error e => .error (-(e : Int))
    | .ok (.discrete sizes) =>
      let res_count := sizes.length
      if res_count = 0 then .ok []
      else .ok (sizes.take res_count)
    | .ok (.continuous r) | .ok (.stepwise r) =>
      let filtered := common_resolutions.filter (inResRange r)
      let res_count := filtered.length
      if res_count = 0 then .ok []
      else .ok (filtered.take res_count)

/-- The `stepwise` min/max intervals of `struct v4l2_frmivalenum`. -/
structure FrmivalRange where
  min_num : Nat
  min_den : Nat
  max_num : Nat
  max_den : Nat
deriving Repr, DecidableEq

/-- The driver's answer to `VIDIOC_ENUM_FRAMEINTERVALS` for one
format+resolution: a discrete enumeration or a continuous/stepwise range. -/
inductive FrmivalProbe
  | discrete (intervals : List (Nat × Nat))
  | continuous (r : FrmivalRange)
  | stepwise (r : FrmivalRange)
deriving Repr, DecidableEq

/-- `(float)den / num` as used at v4l2_formats.c:378-384 (no zero guard in
the C code there; a zero numerator never occurs in the fixed table, and the
driver bounds are taken as given). -/
def rawFps (num den : Nat) : ℚ := (den : ℚ) / (num : ℚ)

/-- `v4l2_get_framerates` (v4l2_formats.c:316-480), same two-shape pattern
as `v4l2_get_resolutions`; `intervals` are (numerator, denominator). -/
def v4l2_get_framerates (openOk : Bool) (openErrno : Nat)
    (probe : Except Nat FrmivalProbe) : Except Int (List (Nat × Nat)) :=
  if openOk = false then .error (-(openErrno : Int))
  else
    match probe with
    | .error e => .error (-(e : Int))
    | .ok (.discrete intervals) =>
      let rate_count := intervals.length
      if rate_count = 0 then .ok []
      else .ok (intervals.take rate_count)
    | .ok (.continuous r) | .ok (.stepwise r) =>
      let min_fps := rawFps r.min_num r.min_den
      let max_fps := rawFps r.max_num r.max_den
      let filtered := common_framerates.filter
        (fun p => min_fps ≤ rawFps p.1 p.2 && rawFps p.1 p.2 ≤ max_fps)
      let rate_count := filtered.length
      if rate_count = 0 then .ok []
      else .ok (filtered.take rate_count)

/-! ## v4l2_controls.c -/

def V4L2_CTRL_FLAG_DISABLED : Nat := 0x0001
def V4L2_CID_BASE : Nat := 0x00980900
def V4L2_CID_LASTP1 : Nat := V4L2_CID_BASE + 44
def V4L2_CID_PRIVATE_BASE : Nat := 0x08000000
def V4L2_CTRL_TYPE_MENU : Int := 3
def V4L2_CTRL_TYPE_INTEGER_MENU : Int := 9

/-- `struct v4l2_control_info` (v4l2_detector.h:63-73); also stands for one
successful `VIDIOC_QUERYCTRL` answer.  `Inhabited.default` is the all-zero
record, matching the `calloc` zero initialisation. -/
structure CtrlInfo where
  id : Nat
  name : String
  type : Int
  min : Int
  max : Int
  step : Int
  default_value : Int
  flags : Nat
deriving Repr, DecidableEq, Inhabited

/-- The disabled-flag test `qctrl.flags & V4L2_CTRL_FLAG_DISABLED`. -/
def ctrlDisabled (c : CtrlInfo) : Bool :=
  decide (c.flags &&& V4L2_CTRL_FLAG_DISABLED ≠ 0)

/-- The driver's (deterministic) control-query behaviour.
`nextChain` is the sequence of successful `VIDIOC_QUERYCTRL` answers under
the `V4L2_CTRL_FLAG_NEXT_CTRL` protocol (the query after the last entry
fails); `stdResp` answers exact-id queries in the standard range; and
`privChain` is the run of consecutive successful answers for ids
`V4L2_CID_PRIVATE_BASE`, `V4L2_CID_PRIVATE_BASE + 1`, ... (the next id
fails).  Drivers echo the queried id into the answer. -/
structure CtrlEnv where
  nextChain : List CtrlInfo
  stdResp : Nat → Option CtrlInfo
  privChain : List CtrlInfo

/-- The ids probed by the legacy standard-range loops
(v4l2_controls.c:57 and 157). -/
def stdIds : List Nat :=
  (List.range (V4L2_CID_LASTP1 - V4L2_CID_BASE)).map (V4L2_CID_BASE + ·)

/-- Count pass, modern protocol (v4l2_controls.c:41-52): every successful
answer that is not disabled is counted. -/
def countModern (env : CtrlEnv) : Nat :=
  (env.nextChain.filter (fun c => !ctrlDisabled c)).length

/-- Count pass, legacy standard range (v4l2_controls.c:57-69). -/
def countLegacyStd (env : CtrlEnv) : Nat :=
  ((stdIds.filterMap env.stdResp).filter (fun c => !ctrlDisabled c)).length

/-- Count pass, legacy private range (v4l2_controls.c:72-88): disabled
answers are skipped with `continue`, the loop stops at the first failed
query. -/
def countLegacyPriv (env : CtrlEnv) : Nat :=
  (env.privChain.filter (fun c => !ctrlDisabled c)).length

/-- Fill pass, legacy private branch (v4l2_controls.c:172-185): unlike the
count pass, an answer carrying the disabled flag takes the `else break`
arm and terminates the whole fill loop. -/
def fillPriv : List CtrlInfo → Nat → List CtrlInfo
  | _, 0 => []
  | [], _ => []
  | c :: rest, Nat.succ b =>
    if ctrlDisabled c then [] else c :: fillPriv rest b

/-- Fill pass, legacy standard branch (v4l2_controls.c:157-165): a disabled
or failed answer just advances the id; when the id reaches
`V4L2_CID_LASTP1` the loop jumps to the private range
(v4l2_controls.c:167-170). -/
def fillStd (env : CtrlEnv) : List Nat → Nat → List CtrlInfo
  | _, 0 => []
  | [], b => fillPriv env.privChain b
  | id :: rest, Nat.succ b =>
    match env.stdResp id with
    | some c =>
      if ctrlDisabled c then fillStd env rest (Nat.succ b)
      else c :: fillStd env rest b
    | none => fillStd env rest (Nat.succ b)

/-- Fill pass, modern branch (v4l2_controls.c:117-150): disabled answers
are skipped, a failed query switches to the legacy protocol starting at
`V4L2_CID_BASE`; the loop runs while `index < ctrl_count`. -/
def fillModern (env : CtrlEnv) : List CtrlInfo → Nat → List CtrlInfo
  | _, 0 => []
  | [], b => fillStd env stdIds b
  | c :: rest, Nat.succ b =>
    if ctrlDisabled c then fillModern env rest (Nat.succ b)
    else c :: fillModern env rest b

/-- The count-pass total (v4l2_controls.c:36-89): the modern protocol's
count, falling back to the legacy standard + private counts when the
modern protocol found nothing. -/
def ctrlCount (env : CtrlEnv) : Nat :=
  if countModern env = 0 then countLegacyStd env + countLegacyPriv env
  else countModern env

/-- `v4l2_get_controls` (v4l2_controls.c:23-214).  The returned array has
`ctrl_count` entries; if the fill loop terminates early (the private-range
`break` on a disabled control), the remaining entries keep their `calloc`
zero initialisation, modelled by the `List.replicate default` padding. -/
def v4l2_get_controls (openOk : Bool) (openErrno : Nat) (env : CtrlEnv) :
    Except Int (List CtrlInfo) :=
  if openOk = false then .error (-(openErrno : Int))
  else if ctrlCount env = 0 then .ok []
  else
    .ok (fillModern env env.nextChain (ctrlCount env) ++
      List.replicate
        (ctrlCount env - (fillModern env env.nextChain (ctrlCount env)).length)
        default)

/-- Environment of one `v4l2_get_menu_items` call: the open outcome, the
`VIDIOC_QUERYCTRL` outcome for the control, and the `VIDIOC_QUERYMENU`
outcome per index (`some name` = success, with the display name as the C
code builds it: the menu text, or the stringified value for integer
menus). -/
structure MenuEnv where
  openOk : Bool
  openErrno : Nat
  queryCtrl : Except Nat CtrlInfo
  menuValid : Nat → Option String

/-- `struct v4l2_menu_item` (v4l2_detector.h:78-83). -/
structure MenuItem where
  id : Nat
  index : Nat
  name : String
deriving Repr, DecidableEq

/-- The index range probed by v4l2_controls.c:253:
`for (qmenu.index = qctrl.minimum; qmenu.index <= (uint32_t)qctrl.maximum; ...)`
with the `int32` bounds converted to `u32`. -/
def menuIndices (qctrl : CtrlInfo) : List Nat :=
  let lo := u32ofInt qctrl.min
  let hi := u32ofInt qctrl.max
  (List.range (hi + 1 - lo)).map (lo + ·)

/-- `v4l2_get_menu_items` (v4l2_controls.c:216-314). -/
def v4l2_get_menu_items (env : MenuEnv) (control_id : Nat) :
    Except Int (List MenuItem) :=
  if env.openOk = false then .error (-(env.openErrno : Int))
  else
    match env.queryCtrl with
    | .error e => .error (-(e : Int))
    | .ok qctrl =>
      if qctrl.type ≠ V4L2_CTRL_TYPE_MENU ∧ qctrl.type ≠ V4L2_CTRL_TYPE_INTEGER_MENU then
        .error (-(EINVAL : Int))
      else
        let valid := (menuIndices qctrl).filterMap
          (fun i => (env.menuValid i).map (fun nm => (i, nm)))
        let item_count := valid.length
        if item_count = 0 then .ok []
        else
          .ok ((valid.take item_count).map
            (fun p => { id := control_id, index := p.1, name := p.2 }))

/-! ## v4l2_device.c -/

def V4L2_CAP_VIDEO_CAPTURE : Nat := 0x00000001
def V4L2_CAP_DEVICE_CAPS : Nat := 0x80000000

/-- The fields of `struct v4l2_capability` the sources read. -/
structure CapInfo where
  card : String
  bus_info : String
  capabilities : Nat
  device_caps : Nat
deriving Repr, DecidableEq

/-- One directory entry of `/sys/class/video4linux` together with the
outcomes of opening and capability-querying the corresponding device node
(the identifier-derivation inputs are irrelevant to the claims and
omitted). -/
structure DirEntryEnv where
  name : String
  isDir : Bool
  openOk : Bool
  querycap : Option CapInfo
deriving Repr, DecidableEq

/-- The effective capability selection (v4l2_device.c:81). -/
def effective_caps (cap : CapInfo) : Nat :=
  if cap.capabilities &&& V4L2_CAP_DEVICE_CAPS ≠ 0 then cap.device_caps
  else cap.capabilities

/-- `struct v4l2_device_info` (v4l2_detector.h:24-30), without the derived
stable identifier. -/
structure DeviceInfo where
  device_path : String
  device_name : String
  caps : Nat
deriving Repr, DecidableEq

/-- `v4l2_find_devices` (v4l2_device.c:31-185): directories, unopenable
nodes, nodes failing the capability query, and nodes without video-capture
support in their effective capability mask are skipped; the rest are
recorded with the effective mask as the stored `caps`.  (The allocation
failure path is not modelled.) -/
def v4l2_find_devices (dirOk : Bool) (entries : List DirEntryEnv) :
    Except Int (List DeviceInfo) :=
  if dirOk = false then .error (-(ENOENT : Int))
  else
    .ok (entries.filterMap (fun ent =>
      if ent.isDir then none
      else if ent.openOk = false then none
      else
        match ent.querycap with
        | none => none
        | some cap =>
          let caps := effective_caps cap
          if caps &&& V4L2_CAP_VIDEO_CAPTURE = 0 then none
          else some { device_path := "/dev/" ++ ent.name,
                      device_name := cap.card, caps := caps }))

/-! ## main.c: the best-resolution heuristic (main.c:144-237) -/

/-- `uint32_t` product used in the min/max resolution comparisons
(main.c:152-162). -/
def u32mul (a b : Nat) : Nat := (a * b) % 2 ^ 32

/-- The max-resolution scan (main.c:147-163): starts from the first
discovered resolution and replaces it on a strictly greater `u32` pixel
product, so the first resolution seen wins ties. -/
def maxResolution (r0 : Nat × Nat) (rest : List (Nat × Nat)) : Nat × Nat :=
  rest.foldl
    (fun best r => if u32mul r.1 r.2 > u32mul best.1 best.2 then r else best) r0

/-- The inner `max_temp_fps` scan over a nonempty framerate list
(main.c:210-216): first element as seed, strict greater to replace. -/
def maxFpsAux (m : ℚ) (rest : List (Nat × Nat)) : ℚ :=
  rest.foldl
    (fun acc p =>
      if v4l2_framerate_to_fps p.1 p.2 > acc then v4l2_framerate_to_fps p.1 p.2
      else acc) m

def maxFpsList : List (Nat × Nat) → ℚ
  | [] => 0
  | p :: rest => maxFpsAux (v4l2_framerate_to_fps p.1 p.2) rest

/-- `common_res` shortlist (main.c:180-188). -/
def common_res_shortlist : List (Nat × Nat) := [(1920, 1080), (1280, 720), (640, 480)]

/-- The per-shortlist-entry evaluation (main.c:190-230): `some f` when the
entry occurs in the discovered resolution list, the framerate query
succeeds (`ret >= 0`) and returns a nonempty list whose greatest fps is
`f`; `none` otherwise.  `getRates` is the `v4l2_get_framerates` outcome
for this device+format at the given resolution. -/
def shortlistEntryFps (resolutions : List (Nat × Nat))
    (getRates : Nat × Nat → Except Int (List (Nat × Nat))) (r : Nat × Nat) :
    Option ℚ :=
  if resolutions.contains r then
    match getRates r with
    | .ok rates => if 0 < rates.length then some (maxFpsList rates) else none
    | .error _ => none
  else none

/-- The shortlist loop (main.c:190-230): tracks `(best_res, highest_fps)`,
replacing them when an entry's best fps is strictly greater than the
current `highest_fps`. -/
def bestLoop (entryFps : Nat × Nat → Option ℚ) :
    List (Nat × Nat) → (Nat × Nat) → ℚ → (Nat × Nat) × ℚ
  | [], best, highest => (best, highest)
  | r :: rest, best, highest =>
    match entryFps r with
    | some f =>
      if f > highest then bestLoop entryFps rest r f
      else bestLoop entryFps rest best highest
    | none => bestLoop entryFps rest best highest

/-- The complete best-resolution selection (main.c:176-237) for a nonempty
discovered resolution list: seed `best_res` with the max resolution and
`highest_fps` with 0, run the shortlist loop, and fall back to the max
resolution when `highest_fps < 5.0`. -/
def best_resolution (resolutions : List (Nat × Nat))
    (getRates : Nat × Nat → Except Int (List (Nat × Nat))) : Nat × Nat :=
  match resolutions with
  | [] => (0, 0)
  | r0 :: rest =>
    let maxRes := maxResolution r0 rest
    let br := bestLoop (shortlistEntryFps resolutions getRates)
      common_res_shortlist maxRes 0
    if br.2 < 5 then maxRes else br.1

/-- Modelled from the spec wording of claim C5 (for comparison with
`best_resolution`): "the first shortlist entry that is both supported by
the device and whose best attainable framerate exceeds the 5 fps
threshold", falling back to the max-product discovered resolution. -/
def claimBestResolution (resolutions : List (Nat × Nat))
    (getRates : Nat × Nat → Except Int (List (Nat × Nat))) : Nat × Nat :=
  match common_res_shortlist.find? (fun r =>
    match shortlistEntryFps resolutions getRates r with
    | some f => decide (5 < f)
    | none => false) with
  | some r => r
  | none =>
    match resolutions with
    | [] => (0, 0)
    | r0 :: rest => maxResolution r0 rest

/-! ## Claims about the signal detector -/

/-- C1: `v4l2_get_dv_timings` is a pure function of the open result and the
timings-query result: open failure yields `no-device`; a successful query
with positive width, height and pixelclock yields `locked` with the
observed width, height, interlaced flag and computed fps; a successful
query with any of them zero yields `no-signal`; ENOLINK yields `no-link`,
ENOLCK yields `unstable`, ERANGE yields `out-of-range`, ENOTTY yields
`not-supported`. -/
theorem c1_signal_state_mapping (ioctl : Except Nat BtTimings) (t : BtTimings) :
    (v4l2_get_dv_timings false ioctl =
      { state := .noDevice, width := 0, height := 0, fps := 0, interlaced := 0 })
  ∧ (0 < t.width → 0 < t.height → 0 < t.pixelclock →
      v4l2_get_dv_timings true (.ok t) =
        { state := .locked, width := t.width, height := t.height,
          fps := calculate_fps t, interlaced := t.interlaced })
  ∧ (t.width = 0 ∨ t.height = 0 ∨ t.pixelclock = 0 →
      v4l2_get_dv_timings true (.ok t) =
        { state := .noSignal, width := 0, height := 0, fps := 0, interlaced := 0 })
  ∧ (v4l2_get_dv_timings true (.error ENOLINK)).state = .noLink
  ∧ (v4l2_get_dv_timings true (.error ENOLCK)).state = .unstable
  ∧ (v4l2_get_dv_timings true (.error ERANGE)).state = .outOfRange
  ∧ (v4l2_get_dv_timings true (.error ENOTTY)).state = .notSupported := by
  refine ⟨rfl, ?_, ?_, rfl, rfl, rfl, rfl⟩
  · intro h1 h2 h3
    simp [v4l2_get_dv_timings, h1, h2, h3]
  · intro h
    rcases h with h | h | h <;> simp [v4l2_get_dv_timings, h]

theorem c1_signal_state_mapping_witness :
    v4l2_get_dv_timings true
        (.ok ⟨1920, 1080, 0, 148500000, 88, 44, 148, 4, 5, 36⟩) =
      { state := .locked, width := 1920, height := 1080,
        fps := calculate_fps ⟨1920, 1080, 0, 148500000, 88, 44, 148, 4, 5, 36⟩,
        interlaced := 0 } :=
  (c1_signal_state_mapping (.error 0)
    ⟨1920, 1080, 0, 148500000, 88, 44, 148, 4, 5, 36⟩).2.1
    (by decide) (by decide) (by decide)

/-- C2: for an openable device that answers the capability query,
`v4l2_get_device_status` applies the decision table in order: a successful
or ENOLINK/ENOLCK-failing DV-timings query makes the type HDMI (ready
exactly when the query succeeded with positive width, height, pixelclock);
otherwise driver "uvcvideo" makes it a webcam, ready unconditionally (in
particular under an ENOTTY timings failure); otherwise unknown and ready. -/
theorem c2_device_status_table (driver : String) (t : BtTimings) (e : Nat) :
    (v4l2_get_device_status true true driver (.ok t) =
      { device_type := .hdmi,
        ready := decide (0 < t.width ∧ 0 < t.height ∧ 0 < t.pixelclock) })
  ∧ (e = ENOLINK ∨ e = ENOLCK →
      v4l2_get_device_status true true driver (.error e) =
        { device_type := .hdmi, ready := false })
  ∧ (e ≠ ENOLINK → e ≠ ENOLCK → driver = "uvcvideo" →
      v4l2_get_device_status true true driver (.error e) =
        { device_type := .webcam, ready := true })
  ∧ (e ≠ ENOLINK → e ≠ ENOLCK → driver ≠ "uvcvideo" →
      v4l2_get_device_status true true driver (.error e) =
        { device_type := .unknown, ready := true })
  ∧ v4l2_get_device_status true true "uvcvideo" (.error ENOTTY) =
      { device_type := .webcam, ready := true } := by
  refine ⟨rfl, ?_, ?_, ?_, by decide⟩
  · intro h
    simp [v4l2_get_device_status, h]
  · intro h1 h2 h3
    simp [v4l2_get_device_status, h1, h2, h3]
  · intro h1 h2 h3
    simp [v4l2_get_device_status, h1, h2, h3]

theorem c2_device_status_table_witness :
    v4l2_get_device_status true true "uvcvideo" (.error 25) =
      { device_type := .webcam, ready := true } :=
  (c2_device_status_table "uvcvideo" ⟨0, 0, 0, 0, 0, 0, 0, 0, 0, 0⟩ 25).2.2.1
    (by decide) (by decide) rfl

/-- C3 counterexample: with a successful open and subscription, `select`
reporting readiness (return 1) but `VIDIOC_DQEVENT` failing,
`v4l2_wait_for_source_change` returns the positive `select` result even
though no source-change event was dequeued — refuting "returns a positive
value only when a source-change event actually occurred and was
dequeued". -/
theorem c3_positive_without_event :
    (v4l2_wait_for_source_change ⟨true, true, 1, none⟩).ret = 1 ∧
    (v4l2_wait_for_source_change ⟨true, true, 1, none⟩).dequeued = false := by
  decide

/-- C3 (amended): `v4l2_wait_for_source_change` returns -1 on open failure,
-2 on subscription failure; after a successful subscription every exit
path unsubscribes; on `select` readiness it returns the dequeued event's
change-flags bitmask (reinterpreted as a signed 32-bit value), or — if the
dequeue fails — the positive `select` result itself with no event
dequeued; otherwise it returns the `select` result (0 on timeout, -1 on
select error). -/
theorem c3_wait_contract (env : WaitEnv) (flags : Nat) :
    (env.openOk = false →
      v4l2_wait_for_source_change env = ⟨-1, false, false⟩)
  ∧ (env.openOk = true → env.subscribeOk = false →
      v4l2_wait_for_source_change env = ⟨-2, false, false⟩)
  ∧ (env.openOk = true → env.subscribeOk = true →
      (v4l2_wait_for_source_change env).unsubscribed = true)
  ∧ (env.openOk = true → env.subscribeOk = true → 0 < env.selectRet →
      env.dqevent = some flags →
      v4l2_wait_for_source_change env = ⟨i32ofBits flags, true, true⟩)
  ∧ (env.openOk = true → env.subscribeOk = true → 0 < env.selectRet →
      env.dqevent = none →
      v4l2_wait_for_source_change env = ⟨env.selectRet, true, false⟩)
  ∧ (env.openOk = true → env.subscribeOk = true → env.selectRet ≤ 0 →
      v4l2_wait_for_source_change env = ⟨env.selectRet, true, false⟩) := by
  refine ⟨?_, ?_, ?_, ?_, ?_, ?_⟩
  · intro h; simp [v4l2_wait_for_source_change, h]
  · intro h1 h2; simp [v4l2_wait_for_source_change, h1, h2]
  · intro h1 h2
    unfold v4l2_wait_for_source_change
    simp only [h1, h2, Bool.true_eq_false, if_false]
    split
    · rcases env.dqevent with _ | f <;> rfl
    · rfl
  · intro h1 h2 h3 h4
    simp [v4l2_wait_for_source_change, h1, h2, h3, h4]
  · intro h1 h2 h3 h4
    simp [v4l2_wait_for_source_change, h1, h2, h3, h4]
  · intro h1 h2 h3
    simp [v4l2_wait_for_source_change, h1, h2, not_lt.mpr h3]

theorem c3_wait_contract_witness :
    v4l2_wait_for_source_change ⟨true, true, 1, some 1⟩ = ⟨i32ofBits 1, true, true⟩ :=
  (c3_wait_contract ⟨true, true, 1, some 1⟩ 1).2.2.2.1 rfl rfl (by decide) rfl

/-! ## Claims about the format negotiator -/

/-- C4: when the frame-size probe reports a continuous or stepwise range,
`v4l2_get_resolutions` returns exactly the entries of the fixed
common-resolution table that lie inside the reported rectangle, in table
order. -/
theorem c4_ranged_resolutions (openErr : Nat) (probe : Except Nat FrmsizeProbe)
    (r : StepwiseRange)
    (h : probe = .ok (.continuous r) ∨ probe = .ok (.stepwise r)) :
    v4l2_get_resolutions true openErr probe =
      .ok (common_resolutions.filter (inResRange r)) := by
  have key : ∀ l : List (Nat × Nat),
      (if l.length = 0 then (.ok [] : Except Int (List (Nat × Nat)))
       else .ok (l.take l.length)) = .ok l := by
    intro l
    rcases l with _ | ⟨x, xs⟩
    · simp
    · simp
  rcases h with h | h <;> subst h <;>
    exact key (common_resolutions.filter (inResRange r))

theorem c4_ranged_resolutions_witness :
    v4l2_get_resolutions true 0 (.ok (.stepwise ⟨630, 650, 350, 490⟩)) =
      .ok [(640, 480), (640, 360)] := by
  rw [c4_ranged_resolutions 0 (.ok (.stepwise ⟨630, 650, 350, 490⟩))
    ⟨630, 650, 350, 490⟩ (Or.inr rfl)]
  rfl

/-- C9: the common-resolution table contains the pair (480, 320) twice
(v4l2_formats.c:30 and v4l2_formats.c:53), so a continuous/stepwise range
covering it makes `v4l2_get_resolutions` return a duplicate width×height
pair, contradicting the spec invariant that resolutions are unique within
a format's list. -/
theorem c9_duplicate_in_fallback :
    ((v4l2_get_resolutions true 0
        (.ok (.stepwise ⟨160, 5120, 120, 2160⟩))).toOption.getD []).count
      (480, 320) = 2 := by
  decide

/-! ## Claims about the packed-tuple helpers -/

/-- Reading back the bit pattern of an `int64_t` built from a 64-bit
pattern is the identity. -/
lemma bits64_i64_roundtrip {n : Nat} (hn : n < 2 ^ 64) :
    bits64ofInt (i64ofBits n) = n := by
  unfold bits64ofInt i64ofBits
  have e64n : (2 : Nat) ^ 64 = 18446744073709551616 := by norm_num
  have e63n : (2 : Nat) ^ 63 = 9223372036854775808 := by norm_num
  have e64i : (2 : Int) ^ 64 = 18446744073709551616 := by norm_num
  simp only [e64n, e63n, e64i] at hn ⊢
  split <;> omega

/-- The low 32 bits of the `uint64_t` conversion agree with reduction of
the signed value modulo `2 ^ 32`. -/
lemma bits64_mod_2_32 (a : Int) :
    bits64ofInt a % 2 ^ 32 = (a % (2 ^ 32 : Int)).toNat := by
  unfold bits64ofInt
  have e64i : (2 : Int) ^ 64 = 18446744073709551616 := by norm_num
  have e32i : (2 : Int) ^ 32 = 4294967296 := by norm_num
  have e32n : (2 : Nat) ^ 32 = 4294967296 := by norm_num
  rw [e64i, e32i, e32n]
  omega

/-- Reading a reduced bit pattern back as a signed 32-bit value recovers
any value in the `int32_t` range. -/
lemma i32ofBits_toNat_emod {a : Int} (h1 : -(2 ^ 31) ≤ a) (h2 : a < 2 ^ 31) :
    i32ofBits ((a % (2 ^ 32 : Int)).toNat) = a := by
  unfold i32ofBits
  have e32i : (2 : Int) ^ 32 = 4294967296 := by norm_num
  have e31i : (2 : Int) ^ 31 = 2147483648 := by norm_num
  have e32n : (2 : Nat) ^ 32 = 4294967296 := by norm_num
  have e31n : (2 : Nat) ^ 31 = 2147483648 := by norm_num
  rw [e32i] at *
  rw [e31i] at h1 h2
  rw [e32n, e31n]
  split <;> omega

/-- C10: for `int32_t` inputs whose packed value has nonzero upper 32 bits
(equivalently, `a ≠ 0`), `v4l2_unpack_tuple` inverts `v4l2_pack_tuple`
exactly; and the legacy-format heuristic (upper 32 bits all zero ⇒ assume
the old 16+16 packing) makes the round-trip fail for some pair with
`a = 0` whose packed upper 32 bits are genuinely zero. -/
theorem c10_pack_unpack_roundtrip :
    (∀ a b : Int, -(2 ^ 31) ≤ a → a < 2 ^ 31 → -(2 ^ 31) ≤ b → b < 2 ^ 31 →
        bits64ofInt (v4l2_pack_tuple a b) &&& 0xffffffff00000000 ≠ 0 →
        v4l2_unpack_tuple (v4l2_pack_tuple a b) = (a, b))
  ∧ (∃ a b : Int, a = 0 ∧ -(2 ^ 31) ≤ b ∧ b < 2 ^ 31 ∧
        bits64ofInt (v4l2_pack_tuple a b) &&& 0xffffffff00000000 = 0 ∧
        v4l2_unpack_tuple (v4l2_pack_tuple a b) ≠ (a, b)) := by
  constructor
  · intro a b ha1 ha2 hb1 hb2 hnz
    have hB : bits64ofInt b &&& 0xffffffff = bits64ofInt b % 2 ^ 32 := by
      have hmask : (0xffffffff : Nat) = 2 ^ 32 - 1 := by norm_num
      rw [hmask, Nat.and_pow_two_sub_one_eq_mod]
    have hshift : (bits64ofInt a <<< 32) % 2 ^ 64 =
        2 ^ 32 * (bits64ofInt a % 2 ^ 32) := by
      rw [Nat.shiftLeft_eq]
      have h64 : (2 : Nat) ^ 64 = 2 ^ 32 * 2 ^ 32 := by norm_num
      rw [h64, Nat.mul_mod_mul_right, mul_comm]
    have hua_lt : bits64ofInt a % 2 ^ 32 < 2 ^ 32 :=
      Nat.mod_lt _ (by norm_num)
    have hub_lt : bits64ofInt b % 2 ^ 32 < 2 ^ 32 :=
      Nat.mod_lt _ (by norm_num)
    have hbits : ((bits64ofInt a <<< 32) % 2 ^ 64) ||| (bits64ofInt b &&& 0xffffffff) =
        2 ^ 32 * (bits64ofInt a % 2 ^ 32) + bits64ofInt b % 2 ^ 32 := by
      rw [hshift, hB]
      exact (Nat.mul_add_lt_is_or hub_lt _).symm
    have hN : 2 ^ 32 * (bits64ofInt a % 2 ^ 32) + bits64ofInt b % 2 ^ 32 < 2 ^ 64 := by
      have h1 := hua_lt
      have h2 := hub_lt
      have e32 : (2 : Nat) ^ 32 = 4294967296 := by norm_num
      have e64 : (2 : Nat) ^ 64 = 18446744073709551616 := by norm_num
      rw [e32] at h1 h2
      rw [e32, e64]
      omega
    have hbits2 : bits64ofInt (v4l2_pack_tuple a b) =
        2 ^ 32 * (bits64ofInt a % 2 ^ 32) + bits64ofInt b % 2 ^ 32 := by
      unfold v4l2_pack_tuple
      rw [hbits, bits64_i64_roundtrip hN]
    rw [hbits2] at hnz
    have hhigh : (2 ^ 32 * (bits64ofInt a % 2 ^ 32) + bits64ofInt b % 2 ^ 32) >>> 32 =
        bits64ofInt a % 2 ^ 32 := by
      rw [Nat.shiftRight_eq_div_pow, Nat.mul_add_div (by norm_num),
        Nat.div_eq_of_lt hub_lt, add_zero]
    have hlow : (2 ^ 32 * (bits64ofInt a % 2 ^ 32) + bits64ofInt b % 2 ^ 32) &&& 0xffffffff =
        bits64ofInt b % 2 ^ 32 := by
      have hmask : (0xffffffff : Nat) = 2 ^ 32 - 1 := by norm_num
      rw [hmask, Nat.and_pow_two_sub_one_eq_mod, Nat.mul_add_mod,
        Nat.mod_eq_of_lt hub_lt]
    simp only [v4l2_unpack_tuple, hbits2]
    rw [if_neg hnz, hhigh, hlow, bits64_mod_2_32, bits64_mod_2_32,
      i32ofBits_toNat_emod ha1 ha2, i32ofBits_toNat_emod hb1 hb2]
  · refine ⟨0, 65536, rfl, by norm_num, by norm_num, by decide, by decide⟩

theorem c10_pack_unpack_roundtrip_witness :
    v4l2_unpack_tuple (v4l2_pack_tuple 7 (-9)) = (7, -9) :=
  c10_pack_unpack_roundtrip.1 7 (-9) (by norm_num) (by norm_num) (by norm_num)
    (by norm_num) (by decide)

/-! ## Claims about the control enumerator and device discovery -/

lemma fillPriv_zero (chain : List CtrlInfo) : fillPriv chain 0 = [] := by
  cases chain <;> rfl

lemma fillPriv_cons (x : CtrlInfo) (xs : List CtrlInfo) (b : Nat) :
    fillPriv (x :: xs) (b + 1) =
      if ctrlDisabled x then [] else x :: fillPriv xs b := rfl

lemma fillStd_zero (env : CtrlEnv) (ids : List Nat) : fillStd env ids 0 = [] := by
  cases ids <;> rfl

lemma fillStd_nil (env : CtrlEnv) (b : Nat) :
    fillStd env [] (b + 1) = fillPriv env.privChain (b + 1) := rfl

lemma fillStd_cons (env : CtrlEnv) (id : Nat) (rest : List Nat) (b : Nat) :
    fillStd env (id :: rest) (b + 1) =
      (match env.stdResp id with
       | some c =>
         if ctrlDisabled c then fillStd env rest (b + 1)
         else c :: fillStd env rest b
       | none => fillStd env rest (b + 1)) := rfl

lemma fillModern_zero (env : CtrlEnv) (chain : List CtrlInfo) :
    fillModern env chain 0 = [] := by
  cases chain <;> rfl

lemma fillModern_nil (env : CtrlEnv) (b : Nat) :
    fillModern env [] (b + 1) = fillStd env stdIds (b + 1) := rfl

lemma fillModern_cons (env : CtrlEnv) (x : CtrlInfo) (xs : List CtrlInfo) (b : Nat) :
    fillModern env (x :: xs) (b + 1) =
      if ctrlDisabled x then fillModern env xs (b + 1)
      else x :: fillModern env xs b := rfl

/-- Everything the private-range fill loop stores passed the disabled-flag
check. -/
lemma fillPriv_not_disabled :
    ∀ (chain : List CtrlInfo) (b : Nat) (c : CtrlInfo),
      c ∈ fillPriv chain b → ctrlDisabled c = false := by
  intro chain
  induction chain with
  | nil =>
    intro b c hc
    cases b <;> simp [fillPriv] at hc
  | cons x xs ih =>
    intro b c hc
    cases b with
    | zero => rw [fillPriv_zero] at hc; cases hc
    | succ n =>
      rw [fillPriv_cons] at hc
      cases hx : ctrlDisabled x with
      | true => rw [if_pos (by simp [hx])] at hc; cases hc
      | false =>
        rw [if_neg (by simp [hx]), List.mem_cons] at hc
        rcases hc with rfl | hc
        · exact hx
        · exact ih n c hc

/-- Everything the standard-range fill loop stores passed the disabled-flag
check. -/
lemma fillStd_not_disabled (env : CtrlEnv) :
    ∀ (ids : List Nat) (b : Nat) (c : CtrlInfo),
      c ∈ fillStd env ids b → ctrlDisabled c = false := by
  intro ids
  induction ids with
  | nil =>
    intro b c hc
    cases b with
    | zero => rw [fillStd_zero] at hc; cases hc
    | succ n =>
      rw [fillStd_nil] at hc
      exact fillPriv_not_disabled _ _ _ hc
  | cons id rest ih =>
    intro b c hc
    cases b with
    | zero => rw [fillStd_zero] at hc; cases hc
    | succ n =>
      rw [fillStd_cons] at hc
      rcases hq : env.stdResp id with _ | x <;> rw [hq] at hc
      · exact ih _ c hc
      · simp only at hc
        cases hx : ctrlDisabled x with
        | true =>
          rw [if_pos (by simp [hx])] at hc
          exact ih _ c hc
        | false =>
          rw [if_neg (by simp [hx]), List.mem_cons] at hc
          rcases hc with rfl | hc
          · exact hx
          · exact ih _ c hc

/-- Everything the modern fill loop stores passed the disabled-flag
check. -/
lemma fillModern_not_disabled (env : CtrlEnv) :
    ∀ (chain : List CtrlInfo) (b : Nat) (c : CtrlInfo),
      c ∈ fillModern env chain b → ctrlDisabled c = false := by
  intro chain
  induction chain with
  | nil =>
    intro b c hc
    cases b with
    | zero => rw [fillModern_zero] at hc; cases hc
    | succ n =>
      rw [fillModern_nil] at hc
      exact fillStd_not_disabled env _ _ c hc
  | cons x xs ih =>
    intro b c hc
    cases b with
    | zero => rw [fillModern_zero] at hc; cases hc
    | succ n =>
      rw [fillModern_cons] at hc
      cases hx : ctrlDisabled x with
      | true =>
        rw [if_pos (by simp [hx])] at hc
        exact ih _ c hc
      | false =>
        rw [if_neg (by simp [hx]), List.mem_cons] at hc
        rcases hc with rfl | hc
        · exact hx
        · exact ih _ c hc

/-- C6: every control record returned by `v4l2_get_controls` — under the
modern next-control protocol as well as the legacy fixed-range fallback
(private range included) — has the disabled flag clear. -/
theorem c6_no_disabled_controls (openOk : Bool) (e : Nat) (env : CtrlEnv)
    (l : List CtrlInfo) (h : v4l2_get_controls openOk e env = .ok l) :
    ∀ c ∈ l, ctrlDisabled c = false := by
  intro c hc
  unfold v4l2_get_controls at h
  by_cases ho : openOk = false
  · rw [if_pos ho] at h; cases h
  · rw [if_neg ho] at h
    by_cases hz : ctrlCount env = 0
    · rw [if_pos hz] at h
      injection h with h
      rw [← h] at hc
      simp at hc
    · rw [if_neg hz] at h
      injection h with h
      rw [← h, List.mem_append] at hc
      rcases hc with hc | hc
      · exact fillModern_not_disabled env _ _ c hc
      · rw [List.eq_of_mem_replicate hc]
        rfl

theorem c6_no_disabled_controls_witness :
    ctrlDisabled ⟨9963776, "Brightness", 1, 0, 255, 1, 128, 0⟩ = false :=
  c6_no_disabled_controls true 0
    ⟨[⟨9963776, "Brightness", 1, 0, 255, 1, 128, 0⟩], fun _ => none, []⟩
    [⟨9963776, "Brightness", 1, 0, 255, 1, 128, 0⟩] (by rfl)
    ⟨9963776, "Brightness", 1, 0, 255, 1, 128, 0⟩ (by simp)

/-- C8: every device stored by `v4l2_find_devices` carries as its `caps`
field the effective capability bitmask — the device-specific
`device_caps` field whenever the global `capabilities` field has the
device-caps bit set, the global field otherwise — and that effective mask
includes video-capture support. -/
theorem c8_effective_caps_filter (entries : List DirEntryEnv)
    (l : List DeviceInfo) (h : v4l2_find_devices true entries = .ok l) :
    ∀ d ∈ l,
      (∃ ent ∈ entries, ∃ cap, ent.querycap = some cap ∧
        d.caps = (if cap.capabilities &&& V4L2_CAP_DEVICE_CAPS ≠ 0 then
                    cap.device_caps
                  else cap.capabilities)) ∧
      d.caps &&& V4L2_CAP_VIDEO_CAPTURE ≠ 0 := by
  unfold v4l2_find_devices at h
  rw [if_neg (by simp)] at h
  injection h with h
  intro d hd
  rw [← h, List.mem_filterMap] at hd
  obtain ⟨ent, hent, hf⟩ := hd
  simp only at hf
  by_cases h1 : ent.isDir = true
  · rw [if_pos h1] at hf; cases hf
  · rw [if_neg h1] at hf
    by_cases h2 : ent.openOk = false
    · rw [if_pos h2] at hf; cases hf
    · rw [if_neg h2] at hf
      rcases hq : ent.querycap with _ | cap
      · rw [hq] at hf; cases hf
      · rw [hq] at hf
        simp only at hf
        by_cases h3 : effective_caps cap &&& V4L2_CAP_VIDEO_CAPTURE = 0
        · rw [if_pos h3] at hf; cases hf
        · rw [if_neg h3] at hf
          injection hf with hf
          rw [← hf]
          exact ⟨⟨ent, hent, cap, hq, rfl⟩, h3⟩

theorem c8_effective_caps_filter_witness :
    ((∃ ent ∈ [(⟨"video0", false, true,
          some ⟨"Cam", "usb-1", 2147483649, 1⟩⟩ : DirEntryEnv)],
        ∃ cap, ent.querycap = some cap ∧
          (⟨"/dev/video0", "Cam", 1⟩ : DeviceInfo).caps =
            (if cap.capabilities &&& V4L2_CAP_DEVICE_CAPS ≠ 0 then
               cap.device_caps
             else cap.capabilities)) ∧
      (⟨"/dev/video0", "Cam", 1⟩ : DeviceInfo).caps &&&
        V4L2_CAP_VIDEO_CAPTURE ≠ 0) :=
  c8_effective_caps_filter
    [⟨"video0", false, true, some ⟨"Cam", "usb-1", 2147483649, 1⟩⟩]
    [⟨"/dev/video0", "Cam", 1⟩] (by rfl) ⟨"/dev/video0", "Cam", 1⟩ (by simp)

/-! ## Claims about the best-resolution heuristic -/

lemma bestLoop_nil (g : Nat × Nat → Option ℚ) (best : Nat × Nat) (h : ℚ) :
    bestLoop g [] best h = (best, h) := rfl

lemma bestLoop_cons (g : Nat × Nat → Option ℚ) (r : Nat × Nat)
    (rest : List (Nat × Nat)) (best : Nat × Nat) (h : ℚ) :
    bestLoop g (r :: rest) best h =
      (match g r with
       | some f => if f > h then bestLoop g rest r f else bestLoop g rest best h
       | none => bestLoop g rest best h) := rfl

/-- Spec-level description of the loop's `highest_fps`: the maximum of the
seed and every evaluated entry's best framerate, folded over the shortlist
in order (independent of the tracked-entry bookkeeping). -/
def loopMax (g : Nat × Nat → Option ℚ) : List (Nat × Nat) → ℚ → ℚ
  | [], h => h
  | r :: rest, h =>
    match g r with
    | some f => max f (loopMax g rest h)
    | none => loopMax g rest h

lemma loopMax_nil (g : Nat × Nat → Option ℚ) (h : ℚ) : loopMax g [] h = h := rfl

lemma loopMax_cons (g : Nat × Nat → Option ℚ) (r : Nat × Nat)
    (rest : List (Nat × Nat)) (h : ℚ) :
    loopMax g (r :: rest) h =
      (match g r with
       | some f => max f (loopMax g rest h)
       | none => loopMax g rest h) := rfl

lemma loopMax_base_le (g : Nat × Nat → Option ℚ) :
    ∀ (l : List (Nat × Nat)) (h : ℚ), h ≤ loopMax g l h := by
  intro l
  induction l with
  | nil => intro h; exact le_refl h
  | cons r rest ih =>
    intro h
    rw [loopMax_cons]
    rcases hr : g r with _ | f
    · exact ih h
    · exact le_trans (ih h) (le_max_right f (loopMax g rest h))

lemma loopMax_shift (g : Nat × Nat → Option ℚ) :
    ∀ (l : List (Nat × Nat)) {a b : ℚ}, b ≤ a →
      loopMax g l a = max a (loopMax g l b) := by
  intro l
  induction l with
  | nil =>
    intro a b hba
    rw [loopMax_nil, loopMax_nil]
    exact (max_eq_left hba).symm
  | cons r rest ih =>
    intro a b hba
    rw [loopMax_cons, loopMax_cons]
    rcases hr : g r with _ | f
    · exact ih hba
    · show max f (loopMax g rest a) = max a (max f (loopMax g rest b))
      rw [ih hba]
      exact max_left_comm f a (loopMax g rest b)

/-- Exact characterization of the shortlist loop: its final `highest_fps`
is `loopMax`, and whenever the seed was strictly improved the tracked
entry is exactly the first list element whose evaluation equals that
maximum (so earlier entries win ties); with no strict improvement the
loop returns its seed unchanged. -/
lemma bestLoop_exact (g : Nat × Nat → Option ℚ) :
    ∀ (l : List (Nat × Nat)) (best : Nat × Nat) (h : ℚ),
      (bestLoop g l best h).2 = loopMax g l h ∧
      (h < (bestLoop g l best h).2 →
        l.find? (fun r => decide (g r = some (bestLoop g l best h).2)) =
          some (bestLoop g l best h).1) ∧
      (¬ h < (bestLoop g l best h).2 → bestLoop g l best h = (best, h)) := by
  intro l
  induction l with
  | nil =>
    intro best h
    exact ⟨rfl, fun hlt => absurd hlt (lt_irrefl h), fun _ => rfl⟩
  | cons x xs ih =>
    intro best h
    rcases hx : g x with _ | f
    · have hred : bestLoop g (x :: xs) best h = bestLoop g xs best h := by
        rw [bestLoop_cons, hx]
      have hmax : loopMax g (x :: xs) h = loopMax g xs h := by
        rw [loopMax_cons, hx]
      obtain ⟨ih1, ih2, ih3⟩ := ih best h
      rw [hred, hmax]
      refine ⟨ih1, ?_, ih3⟩
      intro hlt
      rw [List.find?_cons_of_neg _ (by simp [hx])]
      exact ih2 hlt
    · by_cases hgt : f > h
      · have hred : bestLoop g (x :: xs) best h = bestLoop g xs x f := by
          rw [bestLoop_cons, hx]
          exact if_pos hgt
        have hmax : loopMax g (x :: xs) h = max f (loopMax g xs h) := by
          rw [loopMax_cons, hx]
        obtain ⟨ih1, ih2, ih3⟩ := ih x f
        have hfle : f ≤ (bestLoop g xs x f).2 := by
          rw [ih1]
          exact loopMax_base_le g xs f
        refine ⟨?_, ?_, ?_⟩
        · rw [hred, hmax, ih1]
          exact loopMax_shift g xs (le_of_lt hgt)
        · intro hlt
          rw [hred] at hlt ⊢
          by_cases heq : (bestLoop g xs x f).2 = f
          · have hB : bestLoop g xs x f = (x, f) := by
              apply ih3
              rw [heq]
              exact lt_irrefl f
            rw [hB]
            exact List.find?_cons_of_pos _ (by simp [hx])
          · have hflt : f < (bestLoop g xs x f).2 :=
              lt_of_le_of_ne hfle (fun hh => heq hh.symm)
            rw [List.find?_cons_of_neg _
              (by simp [hx]; exact fun hh => heq hh.symm)]
            exact ih2 hflt
        · intro hnlt
          exfalso
          apply hnlt
          rw [hred]
          exact lt_of_lt_of_le hgt hfle
      · have hle : f ≤ h := le_of_not_lt hgt
        have hred : bestLoop g (x :: xs) best h = bestLoop g xs best h := by
          rw [bestLoop_cons, hx]
          exact if_neg hgt
        have hmax : loopMax g (x :: xs) h = loopMax g xs h := by
          rw [loopMax_cons, hx]
          exact max_eq_right (le_trans hle (loopMax_base_le g xs h))
        obtain ⟨ih1, ih2, ih3⟩ := ih best h
        refine ⟨?_, ?_, ?_⟩
        · rw [hred, hmax]
          exact ih1
        · intro hlt
          rw [hred] at hlt ⊢
          rw [List.find?_cons_of_neg _
            (by simp [hx]; exact ne_of_lt (lt_of_le_of_lt hle hlt))]
          exact ih2 hlt
        · intro hnlt
          rw [hred] at hnlt ⊢
          exact ih3 hnlt

/-- A shortlist entry only evaluates to `some` fps when it occurs in the
discovered resolution list. -/
lemma shortlistEntryFps_contains {rs : List (Nat × Nat)}
    {g : Nat × Nat → Except Int (List (Nat × Nat))} {r : Nat × Nat} {f : ℚ}
    (h : shortlistEntryFps rs g r = some f) : rs.contains r = true := by
  by_cases hc : rs.contains r = true
  · exact hc
  · unfold shortlistEntryFps at h
    rw [if_neg hc] at h
    cases h

/-- C5 (amended): for a nonempty discovered resolution list, write `m` for
the loop's final `highest_fps` — the maximum, seeded at 0, of the best
attainable framerate of every supported-and-queryable shortlist entry,
scanned in order.  If `m < 5` the selection is exactly the max-product
discovered resolution (unsigned 32-bit products, first seen wins ties);
if `5 ≤ m` the selection is exactly the first shortlist entry whose best
attainable framerate equals `m` — a supported entry, and not necessarily
the first entry exceeding 5 fps — so earlier shortlist entries win ties
and a qualifying tracked entry is always chosen over the fallback. -/
theorem c5_best_resolution_characterization (resolutions : List (Nat × Nat))
    (getRates : Nat × Nat → Except Int (List (Nat × Nat)))
    (r0 : Nat × Nat) (rest : List (Nat × Nat))
    (hres : resolutions = r0 :: rest) :
    (loopMax (shortlistEntryFps resolutions getRates) common_res_shortlist 0 < 5 →
      best_resolution resolutions getRates = maxResolution r0 rest)
  ∧ (5 ≤ loopMax (shortlistEntryFps resolutions getRates) common_res_shortlist 0 →
      ∃ r, common_res_shortlist.find?
          (fun r2 => decide (shortlistEntryFps resolutions getRates r2 =
            some (loopMax (shortlistEntryFps resolutions getRates)
              common_res_shortlist 0))) = some r ∧
        best_resolution resolutions getRates = r ∧
        resolutions.contains r = true ∧
        shortlistEntryFps resolutions getRates r =
          some (loopMax (shortlistEntryFps resolutions getRates)
            common_res_shortlist 0)) := by
  subst hres
  obtain ⟨h1, h2, h3⟩ := bestLoop_exact (shortlistEntryFps (r0 :: rest) getRates)
    common_res_shortlist (maxResolution r0 rest) 0
  have hbr : best_resolution (r0 :: rest) getRates =
      (if (bestLoop (shortlistEntryFps (r0 :: rest) getRates)
            common_res_shortlist (maxResolution r0 rest) 0).2 < 5
       then maxResolution r0 rest
       else (bestLoop (shortlistEntryFps (r0 :: rest) getRates)
            common_res_shortlist (maxResolution r0 rest) 0).1) := rfl
  constructor
  · intro hm
    rw [← h1] at hm
    rw [hbr, if_pos hm]
  · intro hm
    rw [← h1] at hm ⊢
    have h0 : (0 : ℚ) < (bestLoop (shortlistEntryFps (r0 :: rest) getRates)
        common_res_shortlist (maxResolution r0 rest) 0).2 :=
      lt_of_lt_of_le (by norm_num) hm
    have hfind := h2 h0
    have hpx := List.find?_some hfind
    simp only [decide_eq_true_eq] at hpx
    refine ⟨_, hfind, ?_, shortlistEntryFps_contains hpx, hpx⟩
    rw [hbr, if_neg (not_lt.mpr hm)]

def c5_rs : List (Nat × Nat) := [(1920, 1080), (1280, 720)]

def c5_rates (r : Nat × Nat) : Except Int (List (Nat × Nat)) :=
  if r = (1920, 1080) then .ok [(1, 10)]
  else if r = (1280, 720) then .ok [(1, 30)] else .ok []

/-- C5 counterexample: with 1920×1080 supported at best 10 fps and
1280×720 supported at best 30 fps, the code selects 1280×720 (the
shortlist entry with the highest best framerate), while the claim's rule
— first shortlist entry supported with framerate above 5 fps — selects
1920×1080. -/
theorem c5_first_qualifying_refuted :
    best_resolution c5_rs c5_rates = (1280, 720) ∧
    claimBestResolution c5_rs c5_rates = (1920, 1080) ∧
    ((1280, 720) : Nat × Nat) ≠ (1920, 1080) := by
  refine ⟨?_, ?_, by decide⟩
  · norm_num [best_resolution, c5_rs, c5_rates, maxResolution, u32mul,
      common_res_shortlist, bestLoop_cons, bestLoop_nil, shortlistEntryFps,
      maxFpsList, maxFpsAux, v4l2_framerate_to_fps]
  · norm_num [claimBestResolution, c5_rs, c5_rates, maxResolution, u32mul,
      common_res_shortlist, shortlistEntryFps, List.find?,
      maxFpsList, maxFpsAux, v4l2_framerate_to_fps]

theorem c5_best_resolution_characterization_witness :
    ((loopMax (shortlistEntryFps c5_rs c5_rates) common_res_shortlist 0 < 5 →
       best_resolution c5_rs c5_rates = maxResolution (1920, 1080) [(1280, 720)])
  ∧ (5 ≤ loopMax (shortlistEntryFps c5_rs c5_rates) common_res_shortlist 0 →
       ∃ r, common_res_shortlist.find?
           (fun r2 => decide (shortlistEntryFps c5_rs c5_rates r2 =
             some (loopMax (shortlistEntryFps c5_rs c5_rates)
               common_res_shortlist 0))) = some r ∧
         best_resolution c5_rs c5_rates = r ∧
         c5_rs.contains r = true ∧
         shortlistEntryFps c5_rs c5_rates r =
           some (loopMax (shortlistEntryFps c5_rs c5_rates)
             common_res_shortlist 0))) :=
  c5_best_resolution_characterization c5_rs c5_rates (1920, 1080)
    [(1280, 720)] rfl

/-! ## Claims about error-result shapes -/

/-- Outcome shape of a list query: a successful (possibly empty) list, or
a strictly negative error code. -/
def okOrNegative {α : Type} : Except Int (List α) → Prop
  | .ok _ => True
  | .error e => e < 0

/-- C7 counterexample: a driver with zero frame sizes for a format signals
this with EINVAL on the very first `VIDIOC_ENUM_FRAMESIZES` probe, and
`v4l2_get_resolutions` (v4l2_formats.c:176-181) surfaces that legitimate
empty enumeration as the negative error -EINVAL instead of an empty
success. -/
theorem c7_empty_enumeration_as_error :
    v4l2_get_resolutions true 0 (.error EINVAL) = .error (-22) ∧
      ((-22 : Int) < 0) :=
  ⟨rfl, by norm_num⟩

/-- Helper: an outcome that is a successful list either way is well
shaped. -/
lemma okOrNegative_ok_or_ok {α : Type} (c : Prop) [Decidable c]
    (l1 l2 : List α) :
    okOrNegative (if c then (.ok l1 : Except Int (List α)) else .ok l2) := by
  split <;> exact trivial

/-- C7 (amended): every list query returns either a successful list
(possibly empty) or a strictly negative error code, and the queries whose
first enumeration step cannot itself fail (find devices, get formats, get
controls, get menu items) return an empty success when the driver reports
nothing; but `v4l2_get_resolutions` and `v4l2_get_framerates` surface any
failure of their first probe — including the EINVAL that signals an empty
enumeration — as a negative error code. -/
theorem c7_amended_trichotomy
    (dirOk op : Bool) (eo : Nat) (heo : 0 < eo)
    (entries : List DirEntryEnv) (fmts : List FormatDesc)
    (sprobe : Except Nat FrmsizeProbe) (hs : ∀ e, sprobe = .error e → 0 < e)
    (iprobe : Except Nat FrmivalProbe) (hi : ∀ e, iprobe = .error e → 0 < e)
    (cenv : CtrlEnv) (menv : MenuEnv) (hm1 : 0 < menv.openErrno)
    (hm2 : ∀ e, menv.queryCtrl = .error e → 0 < e) (cid : Nat) :
    okOrNegative (v4l2_find_devices dirOk entries)
  ∧ v4l2_find_devices true [] = .ok []
  ∧ okOrNegative (v4l2_get_formats op eo fmts)
  ∧ v4l2_get_formats true eo [] = .ok []
  ∧ okOrNegative (v4l2_get_resolutions op eo sprobe)
  ∧ (∀ e, 0 < e →
      v4l2_get_resolutions true eo (.error e) = .error (-(e : Int)) ∧
        -(e : Int) < 0)
  ∧ okOrNegative (v4l2_get_framerates op eo iprobe)
  ∧ (∀ e, 0 < e →
      v4l2_get_framerates true eo (.error e) = .error (-(e : Int)) ∧
        -(e : Int) < 0)
  ∧ okOrNegative (v4l2_get_controls op eo cenv)
  ∧ v4l2_get_controls true eo ⟨[], fun _ => none, []⟩ = .ok []
  ∧ okOrNegative (v4l2_get_menu_items menv cid)
  ∧ (menv.openOk = true → ∀ qc, menv.queryCtrl = .ok qc →
      qc.type = V4L2_CTRL_TYPE_MENU → (∀ i, menv.menuValid i = none) →
      v4l2_get_menu_items menv cid = .ok []) := by
  refine ⟨?_, rfl, ?_, rfl, ?_, ?_, ?_, ?_, ?_, rfl, ?_, ?_⟩
  · -- find devices
    cases dirOk
    · unfold v4l2_find_devices
      rw [if_pos rfl]
      show -(ENOENT : Int) < 0
      norm_num [ENOENT]
    · exact trivial
  · -- formats
    cases op
    · unfold v4l2_get_formats
      rw [if_pos rfl]
      show -(eo : Int) < 0
      omega
    · unfold v4l2_get_formats
      rw [if_neg (by simp)]
      exact okOrNegative_ok_or_ok _ _ _
  · -- resolutions, outcome shape
    cases op
    · unfold v4l2_get_resolutions
      rw [if_pos rfl]
      show -(eo : Int) < 0
      omega
    · unfold v4l2_get_resolutions
      rw [if_neg (by simp)]
      rcases sprobe with e | p
      · have he := hs e rfl
        show -(e : Int) < 0
        omega
      · rcases p with sizes | r | r <;> exact okOrNegative_ok_or_ok _ _ _
  · -- resolutions, first-probe failure is a negative error
    intro e he
    exact ⟨rfl, by omega⟩
  · -- framerates, outcome shape
    cases op
    · unfold v4l2_get_framerates
      rw [if_pos rfl]
      show -(eo : Int) < 0
      omega
    · unfold v4l2_get_framerates
      rw [if_neg (by simp)]
      rcases iprobe with e | p
      · have he := hi e rfl
        show -(e : Int) < 0
        omega
      · rcases p with intervals | r | r <;> exact okOrNegative_ok_or_ok _ _ _
  · -- framerates, first-probe failure is a negative error
    intro e he
    exact ⟨rfl, by omega⟩
  · -- controls
    cases op
    · unfold v4l2_get_controls
      rw [if_pos rfl]
      show -(eo : Int) < 0
      omega
    · unfold v4l2_get_controls
      rw [if_neg (by simp)]
      exact okOrNegative_ok_or_ok _ _ _
  · -- menu items, outcome shape
    cases hmo : menv.openOk
    · unfold v4l2_get_menu_items
      rw [hmo, if_pos rfl]
      show -(menv.openErrno : Int) < 0
      omega
    · unfold v4l2_get_menu_items
      rw [hmo, if_neg (by simp)]
      rcases hq : menv.queryCtrl with e | qc
      · have he := hm2 e hq
        show -(e : Int) < 0
        omega
      · simp only
        split
        · show -(EINVAL : Int) < 0
          norm_num [EINVAL]
        · exact okOrNegative_ok_or_ok _ _ _
  · -- menu items, empty index set yields empty success
    intro ho qc hq htype hnone
    unfold v4l2_get_menu_items
    rw [ho, if_neg (by simp), hq]
    simp only
    rw [if_neg (by simp [htype, V4L2_CTRL_TYPE_MENU, V4L2_CTRL_TYPE_INTEGER_MENU])]
    have hv : (menuIndices qc).filterMap
        (fun i => (menv.menuValid i).map (fun nm => (i, nm))) = [] := by
      rw [List.filterMap_eq_nil_iff]
      intro i hi2
      rw [hnone i]
      rfl
    rw [hv]
    rfl

theorem c7_amended_trichotomy_witness :
    v4l2_get_resolutions true 1 (.error 22) = .error (-((22 : Nat) : Int)) ∧
      -((22 : Nat) : Int) < 0 :=
  (c7_amended_trichotomy true true 1 (by norm_num) [] []
    (.ok (.discrete [])) (fun e h => nomatch h)
    (.ok (.discrete [])) (fun e h => nomatch h)
    ⟨[], fun _ => none, []⟩
    ⟨true, 1, .ok default, fun _ => none⟩ (by decide)
    (fun e h => nomatch h) 0).2.2.2.2.2.1 22 (by norm_num)
